import Mathlib

/-!
Shallow embedding of the agent-provisioning scripts of this repository.

The repository contains three agent-initializer scripts
(`interiorDesignAgent_initializer.py`, `inventoryAgent_initializer.py`,
`shopperAgent_initializer.py`), a standalone credential test
(`test_auth_standalone.py`) and two diagnostic scripts (`diagnose_auth.py`,
`emergency_auth_diagnostic.py`).  Each script is straight-line code whose
behaviour depends only on environment variables and on the
success-or-exception outcome of a handful of external calls (Azure
credential probes, `AIProjectClient` construction, agent CRUD calls,
thread CRUD calls).  We embed each script as a pure function from a
record of those inputs and outcomes to the list of observable events it
performs (external calls attempted and lines printed) together with its
final outcome (normal completion or an uncaught Python exception).

Exceptions modelled are the ones the scripts can raise or catch through
the `Exception` hierarchy; process-interrupting `BaseException`s such as
`KeyboardInterrupt` are outside the model, as is the text carried inside
exception objects (f-string interpolations of exception text are elided
to fixed markers).  Server-assigned identifiers inside printed lines are
likewise elided.  Printed lines are transcribed from the scripts with
apostrophes written as the escape \x27 and emoji outside the basic
multilingual plane written as ASCII markers: <memo> for the memo emoji,
<retry> for the arrows-cycle emoji, <tip> for the light-bulb emoji,
<alert> for the rotating-light emoji, <search> for the magnifying-glass
emoji and <party> for the party-popper emoji.
-/

/-- Python truthiness of an optional environment-variable value:
`os.getenv` returns `None` when the variable is unset, and both `None`
and the empty string are falsy. -/
def truthy : Option String → Bool
  | none => false
  | some s => s != ""

/-- Python `str.lower()` as a character map (environment-variable
values here are ASCII, where the two agree). -/
def pyLower (s : String) : String :=
  String.mk (s.data.map Char.toLower)

/-- The boolean reading of `IS_LOCAL_AUTH` used by every script:
`os.getenv("IS_LOCAL_AUTH", "false").lower() == "true"`. -/
def isLocalAuthBool (v : Option String) : Bool :=
  pyLower (v.getD "false") == "true"

/-- Which credential object is handed to an external call. -/
inductive Cred
  | azureCli
  | defaultAzure
deriving DecidableEq

/-- Observable events of a script run: external calls attempted and
lines printed.  `clientCall c` is the `AIProjectClient(endpoint=...,
credential=...)` constructor call made with credential `c`;
`cliGetToken` and `defaultGetToken` are the `get_token` liveness probes
on the corresponding credential objects. -/
inductive Event
  | cliCredCreated
  | cliGetToken
  | defaultCredCreated
  | defaultGetToken
  | clientCall (c : Cred)
  | printLine (s : String)
  | getAgentCall (agentId : String)
  | updateAgentCall (agentId : String)
  | createAgentCall
  | createThreadCall
  | deleteThreadCall
deriving DecidableEq

/-- Python exceptions that can escape a script in the model.
`keyError name` is the `KeyError` raised by `os.environ[name]` when the
variable is unset; `fileNotFound` is the prompt-file open failure. -/
inductive PyExc
  | keyError (name : String)
  | fileNotFound (path : String)
  | cliProbeError
  | cliClientError
  | defaultClientError
  | getAgentError
deriving DecidableEq

/-- Final outcome of a script run: normal completion, or an uncaught
exception propagating out of the script. -/
inductive Outcome
  | completed
  | raised (e : PyExc)
deriving DecidableEq

/-- Inputs and external-call outcomes of one agent-initializer run.
`endpoint`, `agentIdVar`, `isLocalAuth` and `modelDeployment` are the
raw values of `AZURE_AI_AGENT_ENDPOINT`, the per-agent id variable,
`IS_LOCAL_AUTH` and `AZURE_AI_AGENT_MODEL_DEPLOYMENT_NAME` (`none` =
unset).  The `Ok` flags say whether the corresponding external call
returns normally (`false` = it raises).  `update_agent` and
`create_agent` outcomes are not modelled: no claim depends on what
happens after those calls are issued. -/
structure InitEnv where
  endpoint : Option String
  agentIdVar : Option String
  isLocalAuth : Option String
  modelDeployment : Option String
  promptOk : Bool
  cliGetTokenOk : Bool
  cliClientOk : Bool
  defaultClientOk : Bool
  getAgentOk : Bool
deriving DecidableEq

/-- Printed by the initializers after the whole local-credential try
block succeeded. -/
def cliSuccessLine : String := "Using AzureCliCredential for local authentication"

/-- Printed by the initializers in the `except` branch before falling
back (the interpolated exception text is elided). -/
def cliFallbackLine : String :=
  "AzureCliCredential failed: <exception>. Falling back to DefaultAzureCredential"

/-- Printed by the initializers on the `IS_LOCAL_AUTH != true` branch. -/
def defaultDeployLine : String :=
  "Using DefaultAzureCredential for Azure deployment authentication"

/-- The `except` branch of the initializers: print the fallback line,
construct `DefaultAzureCredential()` and call `AIProjectClient` with it.
`tried` is the event trace accumulated inside the failed try block. -/
def fallbackFrom (tried : List Event) (e : InitEnv) : List Event × Except PyExc Cred :=
  let tr := tried ++ [Event.printLine cliFallbackLine, Event.defaultCredCreated,
    Event.clientCall Cred.defaultAzure]
  if e.defaultClientOk then (tr, Except.ok Cred.defaultAzure)
  else (tr, Except.error PyExc.defaultClientError)

/-- The credential-selection block shared verbatim by the three
initializer scripts (`if is_local_auth: try ... except ... else ...`).
Returns the events performed and either the credential of the
successfully constructed `AIProjectClient` or the exception that
propagates. -/
def credentialResolve (e : InitEnv) : List Event × Except PyExc Cred :=
  if isLocalAuthBool e.isLocalAuth then
    if e.cliGetTokenOk then
      if e.cliClientOk then
        ([Event.cliCredCreated, Event.cliGetToken, Event.clientCall Cred.azureCli,
          Event.printLine cliSuccessLine],
         Except.ok Cred.azureCli)
      else
        fallbackFrom
          [Event.cliCredCreated, Event.cliGetToken, Event.clientCall Cred.azureCli] e
    else
      fallbackFrom [Event.cliCredCreated, Event.cliGetToken] e
  else
    let tr := [Event.printLine defaultDeployLine, Event.defaultCredCreated,
      Event.clientCall Cred.defaultAzure]
    if e.defaultClientOk then (tr, Except.ok Cred.defaultAzure)
    else (tr, Except.error PyExc.defaultClientError)

/-- Whether the credential-selection block completes without an uncaught
exception. -/
def resolveOk (e : InitEnv) : Bool :=
  match (credentialResolve e).2 with
  | Except.ok _ => true
  | Except.error _ => false

/-- The `with project_client:` body of the interior-design and inventory
initializers: `if agent_id:` fetch the agent, then update it, else
create it.  `os.environ["AZURE_AI_AGENT_MODEL_DEPLOYMENT_NAME"]` is
evaluated before the update or create call is issued, so its absence
raises `KeyError` first. -/
def agentCrudPhase (e : InitEnv) (agentId : String) : List Event × Outcome :=
  if agentId != "" then
    if e.getAgentOk then
      match e.modelDeployment with
      | none =>
          ([Event.getAgentCall agentId, Event.printLine "Retrieved existing agent"],
           Outcome.raised (PyExc.keyError "AZURE_AI_AGENT_MODEL_DEPLOYMENT_NAME"))
      | some _ =>
          ([Event.getAgentCall agentId, Event.printLine "Retrieved existing agent",
            Event.updateAgentCall agentId, Event.printLine "Updated agent"],
           Outcome.completed)
    else
      ([Event.getAgentCall agentId], Outcome.raised PyExc.getAgentError)
  else
    match e.modelDeployment with
    | none => ([], Outcome.raised (PyExc.keyError "AZURE_AI_AGENT_MODEL_DEPLOYMENT_NAME"))
    | some _ => ([Event.createAgentCall, Event.printLine "Created agent"], Outcome.completed)

/-- An interior-design or inventory initializer run: read the prompt
file, read `AZURE_AI_AGENT_ENDPOINT` and the per-agent id variable with
`os.environ[...]` (raising `KeyError` when unset), resolve a credential,
then run the agent create-or-update phase. -/
def initializerRun (idVarName : String) (e : InitEnv) : List Event × Outcome :=
  if e.promptOk then
    match e.endpoint with
    | none => ([], Outcome.raised (PyExc.keyError "AZURE_AI_AGENT_ENDPOINT"))
    | some _ =>
      match e.agentIdVar with
      | none => ([], Outcome.raised (PyExc.keyError idVarName))
      | some agentId =>
        match credentialResolve e with
        | (authTr, Except.error exc) => (authTr, Outcome.raised exc)
        | (authTr, Except.ok _) =>
          let r := agentCrudPhase e agentId
          (authTr ++ r.1, r.2)
  else ([], Outcome.raised (PyExc.fileNotFound "prompts"))

/-- `interiorDesignAgent_initializer.py`: id variable `interior_designer`. -/
def interiorDesignRun (e : InitEnv) : List Event × Outcome :=
  initializerRun "interior_designer" e

/-- `inventoryAgent_initializer.py`: id variable `inventory_agent`. -/
def inventoryRun (e : InitEnv) : List Event × Outcome :=
  initializerRun "inventory_agent" e

/-- `shopperAgent_initializer.py`: no per-agent id variable, always
creates the agent after credential resolution. -/
def shopperRun (e : InitEnv) : List Event × Outcome :=
  if e.promptOk then
    match e.endpoint with
    | none => ([], Outcome.raised (PyExc.keyError "AZURE_AI_AGENT_ENDPOINT"))
    | some _ =>
      match credentialResolve e with
      | (authTr, Except.error exc) => (authTr, Outcome.raised exc)
      | (authTr, Except.ok _) =>
        match e.modelDeployment with
        | none => (authTr, Outcome.raised (PyExc.keyError "AZURE_AI_AGENT_MODEL_DEPLOYMENT_NAME"))
        | some _ =>
          (authTr ++ [Event.createAgentCall, Event.printLine "Created agent"],
           Outcome.completed)
  else ([], Outcome.raised (PyExc.fileNotFound "prompts"))

/-- An exception of the MissingConfiguration kind: a required
environment variable or the prompt file is absent. -/
def missingConfig : PyExc → Bool
  | PyExc.keyError _ => true
  | PyExc.fileNotFound _ => true
  | _ => false

/-- True when a trace contains no credential probe, no client
construction and no remote API call (credential-object construction
alone is allowed). -/
def noProbeOrRemote (tr : List Event) : Bool :=
  tr.all fun ev =>
    match ev with
    | Event.cliGetToken => false
    | Event.defaultGetToken => false
    | Event.clientCall _ => false
    | Event.getAgentCall _ => false
    | Event.updateAgentCall _ => false
    | Event.createAgentCall => false
    | Event.createThreadCall => false
    | Event.deleteThreadCall => false
    | _ => true

/-- True when a trace contains no agent or thread CRUD call. -/
def authEventsOnly (tr : List Event) : Bool :=
  tr.all fun ev =>
    match ev with
    | Event.getAgentCall _ => false
    | Event.updateAgentCall _ => false
    | Event.createAgentCall => false
    | Event.createThreadCall => false
    | Event.deleteThreadCall => false
    | _ => true

/-- Process environment and filesystem markers read by
`diagnose_auth.py`.  `optMicrosoftExists` is `os.path.exists("/opt/microsoft")`. -/
structure DiagEnv where
  websiteHostname : Option String
  containerAppName : Option String
  aksNodeName : Option String
  optMicrosoftExists : Bool
  msiEndpoint : Option String
  isLocalAuthVar : Option String
deriving DecidableEq

/-- `diagnose_auth.check_environment`: `in_azure = any([...])` over the
five platform signals, each an environment-variable truthiness check or
the filesystem marker. -/
def in_azure (e : DiagEnv) : Bool :=
  truthy e.websiteHostname || truthy e.containerAppName || truthy e.aksNodeName ||
    e.optMicrosoftExists || truthy e.msiEndpoint

/-- `diagnose_auth.py`: `is_local_auth = os.getenv("IS_LOCAL_AUTH", "").lower()`
(kept as a string and compared against `"true"` / `"false"` literals). -/
def diagIsLocalAuth (e : DiagEnv) : String :=
  pyLower (e.isLocalAuthVar.getD "")

/-- A `DiagEnv` whose five platform signals are given by five booleans
(a set signal carries a non-empty marker value) and whose
`IS_LOCAL_AUTH` is unset. -/
def mkDiagEnv (w c a p m : Bool) : DiagEnv where
  websiteHostname := if w then some "myapp.azurewebsites.net" else none
  containerAppName := if c then some "myapp" else none
  aksNodeName := if a then some "aks-node-1" else none
  optMicrosoftExists := p
  msiEndpoint := if m then some "http://169.254.169.254/msi" else none
  isLocalAuthVar := none

/-- The lines printed by `diagnose_auth.check_environment`, in order.
`azure_cli_available` is the result of `check_azure_cli()` (an external
subprocess probe).  Interpolated exception text does not occur here; the
f-string pieces are assembled exactly as in the script, apostrophes
written as the escape \x27. -/
def check_environment (e : DiagEnv) (azure_cli_available : Bool) : List String :=
  let inAz := in_azure e
  let isLocal := diagIsLocalAuth e
  ["=== Azure Authentication Diagnostic ===\n",
   "Environment Detection:",
   "  Running in Azure: " ++ (if inAz then "Yes" else "No"),
   "  Azure CLI Available: " ++ (if azure_cli_available then "Yes" else "No"),
   "  IS_LOCAL_AUTH: \x27" ++ isLocal ++ "\x27 " ++ (if isLocal == "" then "(not set)" else ""),
   "",
   "Recommendations:"]
  ++ (if inAz then
        if isLocal == "true" then
          ["  ❌ ISSUE: IS_LOCAL_AUTH is set to \x27true\x27 but you\x27re running in Azure",
           "  ✅ FIX: Set IS_LOCAL_AUTH=\x27false\x27 or remove it entirely",
           "  <memo> This will use DefaultAzureCredential with managed identity"]
        else if isLocal == "" || isLocal == "false" then
          ["  ✅ GOOD: IS_LOCAL_AUTH is correctly configured for Azure deployment",
           "  <memo> Using DefaultAzureCredential with managed identity"]
        else
          ["  ⚠️  WARNING: Unexpected IS_LOCAL_AUTH value: \x27" ++ isLocal ++ "\x27",
           "  ✅ RECOMMENDATION: Set IS_LOCAL_AUTH=\x27false\x27 or remove it"]
      else
        if isLocal == "true" then
          if azure_cli_available then
            ["  ✅ GOOD: IS_LOCAL_AUTH is set for local development and Azure CLI is available",
             "  <memo> Using AzureCliCredential"]
          else
            ["  ❌ ISSUE: IS_LOCAL_AUTH=\x27true\x27 but Azure CLI is not available",
             "  ✅ FIX: Install Azure CLI and run \x27az login\x27",
             "  <retry> OR: Set IS_LOCAL_AUTH=\x27false\x27 to use DefaultAzureCredential"]
        else if isLocal == "" || isLocal == "false" then
          ["  ℹ️  INFO: Using DefaultAzureCredential for local development",
           "  <tip> TIP: Set IS_LOCAL_AUTH=\x27true\x27 if you want to use Azure CLI credentials"]
        else
          ["  ⚠️  WARNING: Unexpected IS_LOCAL_AUTH value: \x27" ++ isLocal ++ "\x27",
           "  ✅ RECOMMENDATION: Set IS_LOCAL_AUTH=\x27true\x27 for local or \x27false\x27 for Azure"])
  ++ [""]
  ++ (if inAz && (isLocal == "true") then
        ["Quick Fix for Azure Deployment:",
         "  1. In Azure App Service: Go to Configuration > Application Settings",
         "  2. Add/Update: IS_LOCAL_AUTH = false",
         "  3. Save and restart the application",
         "",
         "Or remove IS_LOCAL_AUTH entirely to use the default (false)"]
      else if !inAz && !(isLocal == "true") && azure_cli_available then
        ["Quick Fix for Local Development:",
         "  1. Add to your .env file: IS_LOCAL_AUTH=true",
         "  2. Or set environment variable: export IS_LOCAL_AUTH=true",
         "  3. Ensure you\x27re logged in: az login"]
      else [])

/-- A line that reports an error or a misconfiguration remediation in
`check_environment` output: the ISSUE, FIX and WARNING lines all start
with one of these three markers. -/
def flaggedLine (s : String) : Bool :=
  "  ❌".toList.isPrefixOf s.toList ||
    "  ✅ FIX".toList.isPrefixOf s.toList ||
    "  ⚠".toList.isPrefixOf s.toList

/-- Markers read by `emergency_auth_diagnostic.py` (its
`azure_indicators` dict has six entries: the five of `diagnose_auth.py`
plus `IDENTITY_ENDPOINT`). -/
structure EmergEnv where
  websiteHostname : Option String
  containerAppName : Option String
  aksNodeName : Option String
  msiEndpoint : Option String
  identityEndpoint : Option String
  optMicrosoftExists : Bool
deriving DecidableEq

/-- `emergency_auth_diagnostic.py`: `in_azure = any(azure_indicators.values())`. -/
def emergencyInAzure (e : EmergEnv) : Bool :=
  truthy e.websiteHostname || truthy e.containerAppName || truthy e.aksNodeName ||
    truthy e.msiEndpoint || truthy e.identityEndpoint || e.optMicrosoftExists

/-- The RECOMMENDATIONS section (step 6) of
`emergency_auth_diagnostic.py`, a function of the already-computed
`in_azure` and boolean `is_local_auth` values it branches on. -/
def emergencyRecommendations (inAzure isLocalBool : Bool) : List String :=
  ["6. RECOMMENDATIONS", "--------------------"]
  ++ (if inAzure && isLocalBool then
        ["<alert> IMMEDIATE FIX NEEDED:",
         "1. In Azure App Service: Configuration > Application Settings",
         "2. Remove \x27IS_LOCAL_AUTH\x27 setting entirely",
         "   OR set \x27IS_LOCAL_AUTH = false\x27",
         "3. Save and restart the application",
         "",
         "This will force the use of DefaultAzureCredential with managed identity"]
      else if inAzure && !isLocalBool then
        ["✅ Configuration appears correct",
         "If still failing, check managed identity permissions"]
      else
        ["ℹ️  This appears to be a local development environment"]
        ++ (if isLocalBool then
              ["Ensure Azure CLI is installed and you\x27re logged in: az login"]
            else
              ["Consider setting IS_LOCAL_AUTH=true for local development"]))

/-- Inputs and external-call outcomes of one `test_auth_standalone.py`
run.  `azureImportOk` models the `import azure...` block; the two
`Ok` pairs model the `get_token` probes and `AIProjectClient`
constructions for each credential kind, and the thread flags model the
test API calls (`false` = the call raises). -/
structure TestEnv where
  endpoint : Option String
  isLocalAuth : Option String
  azureImportOk : Bool
  cliGetTokenOk : Bool
  cliClientOk : Bool
  defaultGetTokenOk : Bool
  defaultClientOk : Bool
  createThreadOk : Bool
  deleteThreadOk : Bool
deriving DecidableEq

/-- How a Python f-string renders an optional value: `None` when unset. -/
def pyShow : Option String → String
  | none => "None"
  | some s => s

/-- The header prints of `test_authentication` (before the endpoint
check). -/
def testHeader (e : TestEnv) : List Event :=
  [Event.printLine "=== Azure AI Agent Authentication Test ===",
   Event.printLine "",
   Event.printLine ("Project Endpoint: " ++ pyShow e.endpoint),
   Event.printLine ("IS_LOCAL_AUTH: \x27" ++ (e.isLocalAuth.getD "false") ++ "\x27"),
   Event.printLine ("Using local auth: " ++
     (if isLocalAuthBool e.isLocalAuth then "True" else "False")),
   Event.printLine ""]

/-- The `DefaultAzureCredential` fallback block of `test_authentication`
(lines reached from the `except` of the `AzureCliCredential` attempt):
probe the default credential, then construct the client with it; any
failure is caught and the function returns `False`. -/
def testDefaultFallback (e : TestEnv) (tried : List Event) : List Event × Bool :=
  let tr := tried ++ [Event.printLine "❌ AzureCliCredential failed: <exception>",
    Event.printLine "<retry> Falling back to DefaultAzureCredential...",
    Event.defaultCredCreated, Event.defaultGetToken]
  if e.defaultGetTokenOk then
    if e.defaultClientOk then
      (tr ++ [Event.printLine "✅ DefaultAzureCredential token obtained: <token>...",
        Event.clientCall Cred.defaultAzure,
        Event.printLine "✅ AIProjectClient created with DefaultAzureCredential (fallback)"],
       true)
    else
      (tr ++ [Event.printLine "✅ DefaultAzureCredential token obtained: <token>...",
        Event.clientCall Cred.defaultAzure,
        Event.printLine "❌ DefaultAzureCredential also failed: <exception>"],
       false)
  else
    (tr ++ [Event.printLine "❌ DefaultAzureCredential also failed: <exception>"], false)

/-- The credential-testing part of `test_authentication`: the
`is_local_auth` branch tries `AzureCliCredential` (probe, then client
construction, both inside one `try`) with fallback on any exception; the
other branch tries `DefaultAzureCredential` directly and returns `False`
on failure.  Returns the events of this part and whether a client was
obtained. -/
def testCredentialPhase (e : TestEnv) : List Event × Bool :=
  if isLocalAuthBool e.isLocalAuth then
    let tried := [Event.printLine "<search> Testing AzureCliCredential...",
      Event.cliCredCreated, Event.cliGetToken]
    if e.cliGetTokenOk then
      if e.cliClientOk then
        (tried ++ [Event.printLine "✅ AzureCliCredential token obtained: <token>...",
          Event.clientCall Cred.azureCli,
          Event.printLine "✅ AIProjectClient created with AzureCliCredential"],
         true)
      else
        testDefaultFallback e
          (tried ++ [Event.printLine "✅ AzureCliCredential token obtained: <token>...",
            Event.clientCall Cred.azureCli])
    else
      testDefaultFallback e tried
  else
    let tr0 := [Event.printLine "<search> Testing DefaultAzureCredential...",
      Event.defaultCredCreated, Event.defaultGetToken]
    if e.defaultGetTokenOk then
      if e.defaultClientOk then
        (tr0 ++ [Event.printLine "✅ DefaultAzureCredential token obtained: <token>...",
          Event.clientCall Cred.defaultAzure,
          Event.printLine "✅ AIProjectClient created with DefaultAzureCredential"],
         true)
      else
        (tr0 ++ [Event.printLine "✅ DefaultAzureCredential token obtained: <token>...",
          Event.clientCall Cred.defaultAzure,
          Event.printLine "❌ DefaultAzureCredential failed: <exception>"],
         false)
    else
      (tr0 ++ [Event.printLine "❌ DefaultAzureCredential failed: <exception>"], false)

/-- `test_auth_standalone.test_authentication()`: returns the events of
the run and the boolean the function returns. -/
def test_authentication (e : TestEnv) : List Event × Bool :=
  let hdr := testHeader e
  if truthy e.endpoint then
    if e.azureImportOk then
      let auth := testCredentialPhase e
      if auth.2 then
        let tr := hdr ++ auth.1 ++ [Event.printLine "",
          Event.printLine "<search> Testing API call (create thread)...",
          Event.createThreadCall]
        if e.createThreadOk then
          let tr2 := tr ++ [Event.printLine "✅ Test thread created successfully: <id>",
            Event.deleteThreadCall]
          if e.deleteThreadOk then
            (tr2 ++ [Event.printLine "✅ Test thread deleted successfully",
              Event.printLine "",
              Event.printLine
                "<party> ALL TESTS PASSED - Authentication is working correctly!"],
             true)
          else
            (tr2 ++ [Event.printLine "❌ API call failed: <exception>",
              Event.printLine
                "This indicates authentication succeeded but API access failed"],
             false)
        else
          (tr ++ [Event.printLine "❌ API call failed: <exception>",
            Event.printLine
              "This indicates authentication succeeded but API access failed"],
           false)
      else (hdr ++ auth.1, false)
    else
      (hdr ++ [Event.printLine "❌ ERROR: Failed to import Azure libraries: <exception>"],
       false)
  else
    (hdr ++ [Event.printLine "❌ ERROR: AZURE_AI_AGENT_ENDPOINT is not set"], false)

/-- The `__main__` block of `test_auth_standalone.py`:
`sys.exit(0 if success else 1)`. -/
def testExitCode (e : TestEnv) : Nat :=
  if (test_authentication e).2 then 0 else 1

/-- Whether a client was obtained in the credential phase: in
local-auth mode the `AzureCliCredential` attempt (probe and client
construction) succeeds wholly, or the `DefaultAzureCredential` fallback
(probe and client construction) does; otherwise the
`DefaultAzureCredential` attempt succeeds. -/
def testAuthSucceeded (e : TestEnv) : Bool :=
  if isLocalAuthBool e.isLocalAuth then
    (e.cliGetTokenOk && e.cliClientOk) || (e.defaultGetTokenOk && e.defaultClientOk)
  else
    e.defaultGetTokenOk && e.defaultClientOk

/-- All steps of the credential-test script succeed: endpoint
configured, libraries imported, a credential obtained and a client
constructed with it, and the test thread created and deleted. -/
def testStepsOk (e : TestEnv) : Bool :=
  truthy e.endpoint && e.azureImportOk && testAuthSucceeded e &&
    e.createThreadOk && e.deleteThreadOk

/-- A fully configured initializer environment in local-auth mode whose
`AzureCliCredential.get_token` probe raises. -/
def envProbeFail : InitEnv :=
  { endpoint := some "https://proj.services.ai.azure.com/api/projects/proj"
    agentIdVar := some "agent-123"
    isLocalAuth := some "true"
    modelDeployment := some "gpt-4o"
    promptOk := true
    cliGetTokenOk := false
    cliClientOk := true
    defaultClientOk := true
    getAgentOk := true }

/-- A fully configured initializer environment in local-auth mode where
the probe and the client construction both succeed. -/
def envLocalOk : InitEnv :=
  { envProbeFail with cliGetTokenOk := true }

/-- A fully configured initializer environment with `IS_LOCAL_AUTH`
unset. -/
def envNonLocal : InitEnv :=
  { envLocalOk with isLocalAuth := none }

/-- A fully configured local-auth environment whose probe succeeds but
whose `AIProjectClient` construction with the CLI credential raises. -/
def envCliCtorFail : InitEnv :=
  { envLocalOk with cliClientOk := false }

/-- A fully configured environment whose per-agent id variable is
unset. -/
def envIdUnset : InitEnv :=
  { envNonLocal with agentIdVar := none }

/-- A fully configured environment whose per-agent id variable is set
to the empty string. -/
def envIdEmpty : InitEnv :=
  { envNonLocal with agentIdVar := some "" }

/-- A fully configured environment with `AZURE_AI_AGENT_ENDPOINT`
unset. -/
def envEndpointUnset : InitEnv :=
  { envNonLocal with endpoint := none }

/-- A diagnostic environment inside Azure (managed-identity endpoint
set) with `IS_LOCAL_AUTH=true`. -/
def diagAzureLocal : DiagEnv :=
  { mkDiagEnv false false false false true with isLocalAuthVar := some "true" }

/-- A diagnostic environment outside Azure with `IS_LOCAL_AUTH` unset. -/
def diagLocalDefault : DiagEnv :=
  mkDiagEnv false false false false false

/-- A credential-test environment with every step succeeding in
non-local mode. -/
def testEnvAllOk : TestEnv :=
  { endpoint := some "https://proj.services.ai.azure.com/api/projects/proj"
    isLocalAuth := none
    azureImportOk := true
    cliGetTokenOk := true
    cliClientOk := true
    defaultGetTokenOk := true
    defaultClientOk := true
    createThreadOk := true
    deleteThreadOk := true }

/-- A credential-test environment with the endpoint unset. -/
def testEnvNoEndpoint : TestEnv :=
  { testEnvAllOk with endpoint := none }

/-- A credential-test environment in local-auth mode where both the CLI
probe and the fallback `DefaultAzureCredential` probe raise. -/
def testEnvLocalBothFail : TestEnv :=
  { testEnvAllOk with
      isLocalAuth := some "true"
      cliGetTokenOk := false
      defaultGetTokenOk := false }

/-- A credential-test environment in non-local mode whose
`DefaultAzureCredential` probe raises. -/
def testEnvNonLocalProbeFail : TestEnv :=
  { testEnvAllOk with defaultGetTokenOk := false }

/-- A credential-test environment in local-auth mode where the CLI
probe and client construction both succeed. -/
def testEnvLocalAllOk : TestEnv :=
  { testEnvAllOk with isLocalAuth := some "true" }

/-- A diagnostic environment outside Azure whose `IS_LOCAL_AUTH` holds
an unexpected value (neither unset nor `true` nor `false`). -/
def diagUnexpectedValue : DiagEnv :=
  { mkDiagEnv false false false false false with isLocalAuthVar := some "yes" }

lemma credentialResolve_result (e : InitEnv) :
    (credentialResolve e).2 = Except.ok Cred.azureCli ∨
    (credentialResolve e).2 = Except.ok Cred.defaultAzure ∨
    (credentialResolve e).2 = Except.error PyExc.defaultClientError := by
  rcases e with ⟨ep, aid, loc, md, pok, ctok, ccli, dok, gok⟩
  cases hl : isLocalAuthBool loc <;> cases ctok <;> cases ccli <;> cases dok <;>
    simp [credentialResolve, fallbackFrom, hl]

lemma credentialResolve_authOnly (e : InitEnv) :
    authEventsOnly (credentialResolve e).1 = true := by
  rcases e with ⟨ep, aid, loc, md, pok, ctok, ccli, dok, gok⟩
  cases hl : isLocalAuthBool loc <;> cases ctok <;> cases ccli <;> cases dok <;>
    simp [credentialResolve, fallbackFrom, authEventsOnly, hl]

lemma credentialResolve_probeFail (e : InitEnv)
    (hl : isLocalAuthBool e.isLocalAuth = true) (hp : e.cliGetTokenOk = false) :
    credentialResolve e =
      ([Event.cliCredCreated, Event.cliGetToken, Event.printLine cliFallbackLine,
        Event.defaultCredCreated, Event.clientCall Cred.defaultAzure],
       if e.defaultClientOk then Except.ok Cred.defaultAzure
       else Except.error PyExc.defaultClientError) := by
  cases hd : e.defaultClientOk <;> simp [credentialResolve, fallbackFrom, hl, hp, hd]

lemma credentialResolve_ctorFail (e : InitEnv)
    (hl : isLocalAuthBool e.isLocalAuth = true) (hp : e.cliGetTokenOk = true)
    (hc : e.cliClientOk = false) :
    credentialResolve e =
      ([Event.cliCredCreated, Event.cliGetToken, Event.clientCall Cred.azureCli,
        Event.printLine cliFallbackLine, Event.defaultCredCreated,
        Event.clientCall Cred.defaultAzure],
       if e.defaultClientOk then Except.ok Cred.defaultAzure
       else Except.error PyExc.defaultClientError) := by
  cases hd : e.defaultClientOk <;> simp [credentialResolve, fallbackFrom, hl, hp, hc, hd]

lemma credentialResolve_localOk (e : InitEnv)
    (hl : isLocalAuthBool e.isLocalAuth = true) (hp : e.cliGetTokenOk = true)
    (hc : e.cliClientOk = true) :
    credentialResolve e =
      ([Event.cliCredCreated, Event.cliGetToken, Event.clientCall Cred.azureCli,
        Event.printLine cliSuccessLine],
       Except.ok Cred.azureCli) := by
  simp [credentialResolve, hl, hp, hc]

lemma credentialResolve_nonLocal (e : InitEnv)
    (hl : isLocalAuthBool e.isLocalAuth = false) :
    credentialResolve e =
      ([Event.printLine defaultDeployLine, Event.defaultCredCreated,
        Event.clientCall Cred.defaultAzure],
       if e.defaultClientOk then Except.ok Cred.defaultAzure
       else Except.error PyExc.defaultClientError) := by
  cases hd : e.defaultClientOk <;> simp [credentialResolve, hl, hd]

lemma agentCrudPhase_outcome (e : InitEnv) (aid : String) :
    (agentCrudPhase e aid).2 = Outcome.completed ∨
    (agentCrudPhase e aid).2 =
      Outcome.raised (PyExc.keyError "AZURE_AI_AGENT_MODEL_DEPLOYMENT_NAME") ∨
    (agentCrudPhase e aid).2 = Outcome.raised PyExc.getAgentError := by
  cases hne : (aid != "") <;> cases hg : e.getAgentOk <;> cases hm : e.modelDeployment <;>
    simp [agentCrudPhase, hne, hg, hm]

lemma initializerRun_resolved (idVar : String) (e : InitEnv) (ep aid : String)
    (hpr : e.promptOk = true) (hep : e.endpoint = some ep)
    (hid : e.agentIdVar = some aid) :
    initializerRun idVar e =
      match credentialResolve e with
      | (authTr, Except.error exc) => (authTr, Outcome.raised exc)
      | (authTr, Except.ok _) =>
          (authTr ++ (agentCrudPhase e aid).1, (agentCrudPhase e aid).2) := by
  simp [initializerRun, hpr, hep, hid]

lemma shopperRun_resolved (e : InitEnv) (ep md : String)
    (hpr : e.promptOk = true) (hep : e.endpoint = some ep)
    (hmd : e.modelDeployment = some md) :
    shopperRun e =
      match credentialResolve e with
      | (authTr, Except.error exc) => (authTr, Outcome.raised exc)
      | (authTr, Except.ok _) =>
          (authTr ++ [Event.createAgentCall, Event.printLine "Created agent"],
           Outcome.completed) := by
  simp [shopperRun, hpr, hep, hmd]

lemma test_local_probeFail (t : TestEnv)
    (hep : truthy t.endpoint = true) (him : t.azureImportOk = true)
    (hl : isLocalAuthBool t.isLocalAuth = true) (hp : t.cliGetTokenOk = false) :
    Event.printLine "❌ AzureCliCredential failed: <exception>" ∈
      (test_authentication t).1 ∧
    Event.printLine "<retry> Falling back to DefaultAzureCredential..." ∈
      (test_authentication t).1 ∧
    Event.defaultCredCreated ∈ (test_authentication t).1 ∧
    Event.defaultGetToken ∈ (test_authentication t).1 ∧
    (Event.clientCall Cred.defaultAzure ∈ (test_authentication t).1 ↔
      t.defaultGetTokenOk = true) := by
  cases hdt : t.defaultGetTokenOk <;> cases hdc : t.defaultClientOk <;>
    cases hct : t.createThreadOk <;> cases hdl : t.deleteThreadOk <;>
    simp [test_authentication, testCredentialPhase, testDefaultFallback, testHeader,
      hep, him, hl, hp, hdt, hdc, hct, hdl]

lemma test_nonLocal_trace (t : TestEnv)
    (hep : truthy t.endpoint = true) (him : t.azureImportOk = true)
    (hl : isLocalAuthBool t.isLocalAuth = false) :
    Event.cliCredCreated ∉ (test_authentication t).1 ∧
    Event.cliGetToken ∉ (test_authentication t).1 ∧
    Event.defaultCredCreated ∈ (test_authentication t).1 ∧
    Event.defaultGetToken ∈ (test_authentication t).1 ∧
    (Event.clientCall Cred.defaultAzure ∈ (test_authentication t).1 ↔
      t.defaultGetTokenOk = true) := by
  cases hdt : t.defaultGetTokenOk <;> cases hdc : t.defaultClientOk <;>
    cases hct : t.createThreadOk <;> cases hdl : t.deleteThreadOk <;>
    simp [test_authentication, testCredentialPhase, testDefaultFallback, testHeader,
      hep, him, hl, hdt, hdc, hct, hdl]

lemma test_localOk_trace (t : TestEnv)
    (hep : truthy t.endpoint = true) (him : t.azureImportOk = true)
    (hl : isLocalAuthBool t.isLocalAuth = true) (hp : t.cliGetTokenOk = true)
    (hc : t.cliClientOk = true) :
    Event.clientCall Cred.azureCli ∈ (test_authentication t).1 ∧
    Event.printLine "✅ AIProjectClient created with AzureCliCredential" ∈
      (test_authentication t).1 ∧
    Event.defaultCredCreated ∉ (test_authentication t).1 ∧
    Event.defaultGetToken ∉ (test_authentication t).1 ∧
    Event.clientCall Cred.defaultAzure ∉ (test_authentication t).1 := by
  cases hct : t.createThreadOk <;> cases hdl : t.deleteThreadOk <;>
    simp [test_authentication, testCredentialPhase, testHeader,
      hep, him, hl, hp, hc, hct, hdl]

lemma initializer_probeFail_core (idVar : String) (e : InitEnv) (ep aid : String)
    (hpr : e.promptOk = true) (hep : e.endpoint = some ep)
    (hid : e.agentIdVar = some aid)
    (hl : isLocalAuthBool e.isLocalAuth = true) (hp : e.cliGetTokenOk = false) :
    Event.printLine cliFallbackLine ∈ (initializerRun idVar e).1 ∧
    Event.defaultCredCreated ∈ (initializerRun idVar e).1 ∧
    Event.clientCall Cred.defaultAzure ∈ (initializerRun idVar e).1 ∧
    (initializerRun idVar e).2 ≠ Outcome.raised PyExc.cliProbeError := by
  rw [initializerRun_resolved idVar e ep aid hpr hep hid,
    credentialResolve_probeFail e hl hp]
  cases hd : e.defaultClientOk
  · simp
  · simp
    rcases agentCrudPhase_outcome e aid with h | h | h <;> simp [h]

lemma shopper_probeFail_core (e : InitEnv) (ep md : String)
    (hpr : e.promptOk = true) (hep : e.endpoint = some ep)
    (hmd : e.modelDeployment = some md)
    (hl : isLocalAuthBool e.isLocalAuth = true) (hp : e.cliGetTokenOk = false) :
    Event.printLine cliFallbackLine ∈ (shopperRun e).1 ∧
    Event.defaultCredCreated ∈ (shopperRun e).1 ∧
    Event.clientCall Cred.defaultAzure ∈ (shopperRun e).1 ∧
    (shopperRun e).2 ≠ Outcome.raised PyExc.cliProbeError := by
  rw [shopperRun_resolved e ep md hpr hep hmd, credentialResolve_probeFail e hl hp]
  cases hd : e.defaultClientOk <;> simp

/-- C1 as stated fails at full scope: the claim quantifies over every
CredentialResolver script, but in `test_auth_standalone.py` the fallback
probes `DefaultAzureCredential.get_token` BEFORE constructing the
client, so when the local probe raises and the fallback probe also
raises, the run returns failure without ever calling `AIProjectClient`
with the platform-default credential. -/
theorem c1_counterexample :
    isLocalAuthBool testEnvLocalBothFail.isLocalAuth = true ∧
    testEnvLocalBothFail.cliGetTokenOk = false ∧
    truthy testEnvLocalBothFail.endpoint = true ∧
    testEnvLocalBothFail.azureImportOk = true ∧
    Event.clientCall Cred.defaultAzure ∉
      (test_authentication testEnvLocalBothFail).1 := by
  decide

/-- C1 amended: in every run of a CredentialResolver script with
`IS_LOCAL_AUTH` evaluating to true in which the
`AzureCliCredential.get_token` liveness probe raises, the script catches
the exception, logs the failure and falls back to the platform-default
strategy, never propagating the probe exception: the three initializers
construct the client with `DefaultAzureCredential`, while the
credential-test script creates `DefaultAzureCredential`, probes it, and
constructs the client with it exactly when that fallback probe succeeds
(returning failure, not raising, otherwise). -/
theorem c1_local_probe_failure_falls_back (e : InitEnv) (t : TestEnv)
    (ep aid md : String)
    (hpr : e.promptOk = true) (hep : e.endpoint = some ep)
    (hid : e.agentIdVar = some aid) (hmd : e.modelDeployment = some md)
    (hl : isLocalAuthBool e.isLocalAuth = true) (hp : e.cliGetTokenOk = false)
    (heT : truthy t.endpoint = true) (himT : t.azureImportOk = true)
    (hlT : isLocalAuthBool t.isLocalAuth = true) (hpT : t.cliGetTokenOk = false) :
    (Event.printLine cliFallbackLine ∈ (interiorDesignRun e).1 ∧
      Event.defaultCredCreated ∈ (interiorDesignRun e).1 ∧
      Event.clientCall Cred.defaultAzure ∈ (interiorDesignRun e).1 ∧
      (interiorDesignRun e).2 ≠ Outcome.raised PyExc.cliProbeError) ∧
    (Event.printLine cliFallbackLine ∈ (inventoryRun e).1 ∧
      Event.defaultCredCreated ∈ (inventoryRun e).1 ∧
      Event.clientCall Cred.defaultAzure ∈ (inventoryRun e).1 ∧
      (inventoryRun e).2 ≠ Outcome.raised PyExc.cliProbeError) ∧
    (Event.printLine cliFallbackLine ∈ (shopperRun e).1 ∧
      Event.defaultCredCreated ∈ (shopperRun e).1 ∧
      Event.clientCall Cred.defaultAzure ∈ (shopperRun e).1 ∧
      (shopperRun e).2 ≠ Outcome.raised PyExc.cliProbeError) ∧
    (Event.printLine "❌ AzureCliCredential failed: <exception>" ∈
        (test_authentication t).1 ∧
      Event.printLine "<retry> Falling back to DefaultAzureCredential..." ∈
        (test_authentication t).1 ∧
      Event.defaultCredCreated ∈ (test_authentication t).1 ∧
      Event.defaultGetToken ∈ (test_authentication t).1 ∧
      (Event.clientCall Cred.defaultAzure ∈ (test_authentication t).1 ↔
        t.defaultGetTokenOk = true)) :=
  ⟨initializer_probeFail_core "interior_designer" e ep aid hpr hep hid hl hp,
   initializer_probeFail_core "inventory_agent" e ep aid hpr hep hid hl hp,
   shopper_probeFail_core e ep md hpr hep hmd hl hp,
   test_local_probeFail t heT himT hlT hpT⟩

/-- Witness for the amended C1 at concrete environments whose probes
raise. -/
theorem c1_local_probe_failure_falls_back_witness :
    isLocalAuthBool envProbeFail.isLocalAuth = true ∧
    envProbeFail.cliGetTokenOk = false ∧
    isLocalAuthBool testEnvLocalBothFail.isLocalAuth = true ∧
    Event.clientCall Cred.defaultAzure ∈ (interiorDesignRun envProbeFail).1 ∧
    Event.defaultCredCreated ∈ (test_authentication testEnvLocalBothFail).1 :=
  ⟨by decide, by decide, by decide,
   (c1_local_probe_failure_falls_back envProbeFail testEnvLocalBothFail
     "https://proj.services.ai.azure.com/api/projects/proj" "agent-123" "gpt-4o"
     (by decide) (by decide) (by decide) (by decide) (by decide) (by decide)
     (by decide) (by decide) (by decide) (by decide)).1.2.2.1,
   (c1_local_probe_failure_falls_back envProbeFail testEnvLocalBothFail
     "https://proj.services.ai.azure.com/api/projects/proj" "agent-123" "gpt-4o"
     (by decide) (by decide) (by decide) (by decide) (by decide) (by decide)
     (by decide) (by decide) (by decide) (by decide)).2.2.2.2.2.1⟩

lemma agentCrud_not_mem (e : InitEnv) (aid : String) :
    Event.cliCredCreated ∉ (agentCrudPhase e aid).1 ∧
    Event.cliGetToken ∉ (agentCrudPhase e aid).1 ∧
    Event.defaultCredCreated ∉ (agentCrudPhase e aid).1 ∧
    Event.defaultGetToken ∉ (agentCrudPhase e aid).1 ∧
    (∀ c, Event.clientCall c ∉ (agentCrudPhase e aid).1) ∧
    Event.printLine cliSuccessLine ∉ (agentCrudPhase e aid).1 ∧
    Event.printLine cliFallbackLine ∉ (agentCrudPhase e aid).1 := by
  cases hne : (aid != "") <;> cases hg : e.getAgentOk <;> cases hm : e.modelDeployment <;>
    simp [agentCrudPhase, hne, hg, hm, cliSuccessLine, cliFallbackLine]

lemma initializer_nonLocal_core (idVar : String) (e : InitEnv) (ep aid : String)
    (hpr : e.promptOk = true) (hep : e.endpoint = some ep)
    (hid : e.agentIdVar = some aid)
    (hl : isLocalAuthBool e.isLocalAuth = false) :
    Event.clientCall Cred.defaultAzure ∈ (initializerRun idVar e).1 ∧
    Event.cliCredCreated ∉ (initializerRun idVar e).1 ∧
    Event.cliGetToken ∉ (initializerRun idVar e).1 := by
  rw [initializerRun_resolved idVar e ep aid hpr hep hid,
    credentialResolve_nonLocal e hl]
  rcases agentCrud_not_mem e aid with ⟨h1, h2, _, _, _, _, _⟩
  cases hd : e.defaultClientOk <;> simp [h1, h2]

lemma shopper_nonLocal_core (e : InitEnv) (ep md : String)
    (hpr : e.promptOk = true) (hep : e.endpoint = some ep)
    (hmd : e.modelDeployment = some md)
    (hl : isLocalAuthBool e.isLocalAuth = false) :
    Event.clientCall Cred.defaultAzure ∈ (shopperRun e).1 ∧
    Event.cliCredCreated ∉ (shopperRun e).1 ∧
    Event.cliGetToken ∉ (shopperRun e).1 := by
  rw [shopperRun_resolved e ep md hpr hep hmd, credentialResolve_nonLocal e hl]
  cases hd : e.defaultClientOk <;> simp

/-- C4 as stated fails at full scope: the claim quantifies over every
CredentialResolver script, but in the non-local branch of
`test_auth_standalone.py` the `DefaultAzureCredential.get_token` probe
runs BEFORE the client is constructed, so when that probe raises the
run returns failure without ever calling `AIProjectClient`. -/
theorem c4_counterexample :
    isLocalAuthBool testEnvNonLocalProbeFail.isLocalAuth = false ∧
    truthy testEnvNonLocalProbeFail.endpoint = true ∧
    testEnvNonLocalProbeFail.azureImportOk = true ∧
    Event.clientCall Cred.defaultAzure ∉
      (test_authentication testEnvNonLocalProbeFail).1 := by
  decide

/-- C4 amended: in every run of a CredentialResolver script with
`IS_LOCAL_AUTH` evaluating to false, the platform-default strategy is
selected and no `AzureCliCredential` is ever created or probed: the
three initializers construct the client with `DefaultAzureCredential`,
while the credential-test script creates `DefaultAzureCredential`,
probes it, and constructs the client with it exactly when that probe
succeeds. -/
theorem c4_nonlocal_never_probes_cli (e : InitEnv) (t : TestEnv) (ep aid md : String)
    (hpr : e.promptOk = true) (hep : e.endpoint = some ep)
    (hid : e.agentIdVar = some aid) (hmd : e.modelDeployment = some md)
    (hl : isLocalAuthBool e.isLocalAuth = false)
    (heT : truthy t.endpoint = true) (himT : t.azureImportOk = true)
    (hlT : isLocalAuthBool t.isLocalAuth = false) :
    (Event.clientCall Cred.defaultAzure ∈ (interiorDesignRun e).1 ∧
      Event.cliCredCreated ∉ (interiorDesignRun e).1 ∧
      Event.cliGetToken ∉ (interiorDesignRun e).1) ∧
    (Event.clientCall Cred.defaultAzure ∈ (inventoryRun e).1 ∧
      Event.cliCredCreated ∉ (inventoryRun e).1 ∧
      Event.cliGetToken ∉ (inventoryRun e).1) ∧
    (Event.clientCall Cred.defaultAzure ∈ (shopperRun e).1 ∧
      Event.cliCredCreated ∉ (shopperRun e).1 ∧
      Event.cliGetToken ∉ (shopperRun e).1) ∧
    (Event.cliCredCreated ∉ (test_authentication t).1 ∧
      Event.cliGetToken ∉ (test_authentication t).1 ∧
      Event.defaultCredCreated ∈ (test_authentication t).1 ∧
      Event.defaultGetToken ∈ (test_authentication t).1 ∧
      (Event.clientCall Cred.defaultAzure ∈ (test_authentication t).1 ↔
        t.defaultGetTokenOk = true)) :=
  ⟨initializer_nonLocal_core "interior_designer" e ep aid hpr hep hid hl,
   initializer_nonLocal_core "inventory_agent" e ep aid hpr hep hid hl,
   shopper_nonLocal_core e ep md hpr hep hmd hl,
   test_nonLocal_trace t heT himT hlT⟩

/-- Witness for the amended C4 at concrete environments with
`IS_LOCAL_AUTH` unset. -/
theorem c4_nonlocal_never_probes_cli_witness :
    isLocalAuthBool envNonLocal.isLocalAuth = false ∧
    isLocalAuthBool testEnvAllOk.isLocalAuth = false ∧
    Event.cliGetToken ∉ (interiorDesignRun envNonLocal).1 ∧
    Event.cliGetToken ∉ (test_authentication testEnvAllOk).1 :=
  ⟨by decide, by decide,
   (c4_nonlocal_never_probes_cli envNonLocal testEnvAllOk
     "https://proj.services.ai.azure.com/api/projects/proj" "agent-123" "gpt-4o"
     (by decide) (by decide) (by decide) (by decide) (by decide) (by decide)
     (by decide) (by decide)).1.2.2,
   (c4_nonlocal_never_probes_cli envNonLocal testEnvAllOk
     "https://proj.services.ai.azure.com/api/projects/proj" "agent-123" "gpt-4o"
     (by decide) (by decide) (by decide) (by decide) (by decide) (by decide)
     (by decide) (by decide)).2.2.2.2.1⟩

/-- C5 as stated fails on the code: with `IS_LOCAL_AUTH=true` and a
successful liveness probe, an exception raised by the subsequent
`AIProjectClient` construction (still inside the same `try`) makes the
script create and use `DefaultAzureCredential`, so the platform-default
strategy IS invoked in a run whose probe succeeded. -/
theorem c5_counterexample :
    isLocalAuthBool envCliCtorFail.isLocalAuth = true ∧
    envCliCtorFail.cliGetTokenOk = true ∧
    Event.defaultCredCreated ∈ (interiorDesignRun envCliCtorFail).1 ∧
    Event.clientCall Cred.defaultAzure ∈ (interiorDesignRun envCliCtorFail).1 := by
  decide

lemma initializer_localOk_core (idVar : String) (e : InitEnv) (ep aid : String)
    (hpr : e.promptOk = true) (hep : e.endpoint = some ep)
    (hid : e.agentIdVar = some aid)
    (hl : isLocalAuthBool e.isLocalAuth = true) (hp : e.cliGetTokenOk = true)
    (hc : e.cliClientOk = true) :
    Event.clientCall Cred.azureCli ∈ (initializerRun idVar e).1 ∧
    Event.printLine cliSuccessLine ∈ (initializerRun idVar e).1 ∧
    Event.defaultCredCreated ∉ (initializerRun idVar e).1 ∧
    Event.defaultGetToken ∉ (initializerRun idVar e).1 ∧
    Event.clientCall Cred.defaultAzure ∉ (initializerRun idVar e).1 := by
  rw [initializerRun_resolved idVar e ep aid hpr hep hid,
    credentialResolve_localOk e hl hp hc]
  rcases agentCrud_not_mem e aid with ⟨_, _, h3, h4, h5, _, _⟩
  simp [h3, h4, h5 Cred.defaultAzure]

lemma shopper_localOk_core (e : InitEnv) (ep md : String)
    (hpr : e.promptOk = true) (hep : e.endpoint = some ep)
    (hmd : e.modelDeployment = some md)
    (hl : isLocalAuthBool e.isLocalAuth = true) (hp : e.cliGetTokenOk = true)
    (hc : e.cliClientOk = true) :
    Event.clientCall Cred.azureCli ∈ (shopperRun e).1 ∧
    Event.printLine cliSuccessLine ∈ (shopperRun e).1 ∧
    Event.defaultCredCreated ∉ (shopperRun e).1 ∧
    Event.defaultGetToken ∉ (shopperRun e).1 ∧
    Event.clientCall Cred.defaultAzure ∉ (shopperRun e).1 := by
  rw [shopperRun_resolved e ep md hpr hep hmd, credentialResolve_localOk e hl hp hc]
  simp

/-- C5 amended: in every run of a CredentialResolver script with
`IS_LOCAL_AUTH` evaluating to true in which the liveness probe succeeds
AND the subsequent `AIProjectClient` construction with the CLI
credential also succeeds, the client is the CLI-credential one and
`DefaultAzureCredential` is never created, probed or used — in the
three initializers and in the credential-test script alike. -/
theorem c5_local_success_uses_cli (e : InitEnv) (t : TestEnv) (ep aid md : String)
    (hpr : e.promptOk = true) (hep : e.endpoint = some ep)
    (hid : e.agentIdVar = some aid) (hmd : e.modelDeployment = some md)
    (hl : isLocalAuthBool e.isLocalAuth = true) (hp : e.cliGetTokenOk = true)
    (hc : e.cliClientOk = true)
    (heT : truthy t.endpoint = true) (himT : t.azureImportOk = true)
    (hlT : isLocalAuthBool t.isLocalAuth = true) (hpT : t.cliGetTokenOk = true)
    (hcT : t.cliClientOk = true) :
    (Event.clientCall Cred.azureCli ∈ (interiorDesignRun e).1 ∧
      Event.printLine cliSuccessLine ∈ (interiorDesignRun e).1 ∧
      Event.defaultCredCreated ∉ (interiorDesignRun e).1 ∧
      Event.defaultGetToken ∉ (interiorDesignRun e).1 ∧
      Event.clientCall Cred.defaultAzure ∉ (interiorDesignRun e).1) ∧
    (Event.clientCall Cred.azureCli ∈ (inventoryRun e).1 ∧
      Event.printLine cliSuccessLine ∈ (inventoryRun e).1 ∧
      Event.defaultCredCreated ∉ (inventoryRun e).1 ∧
      Event.defaultGetToken ∉ (inventoryRun e).1 ∧
      Event.clientCall Cred.defaultAzure ∉ (inventoryRun e).1) ∧
    (Event.clientCall Cred.azureCli ∈ (shopperRun e).1 ∧
      Event.printLine cliSuccessLine ∈ (shopperRun e).1 ∧
      Event.defaultCredCreated ∉ (shopperRun e).1 ∧
      Event.defaultGetToken ∉ (shopperRun e).1 ∧
      Event.clientCall Cred.defaultAzure ∉ (shopperRun e).1) ∧
    (Event.clientCall Cred.azureCli ∈ (test_authentication t).1 ∧
      Event.printLine "✅ AIProjectClient created with AzureCliCredential" ∈
        (test_authentication t).1 ∧
      Event.defaultCredCreated ∉ (test_authentication t).1 ∧
      Event.defaultGetToken ∉ (test_authentication t).1 ∧
      Event.clientCall Cred.defaultAzure ∉ (test_authentication t).1) :=
  ⟨initializer_localOk_core "interior_designer" e ep aid hpr hep hid hl hp hc,
   initializer_localOk_core "inventory_agent" e ep aid hpr hep hid hl hp hc,
   shopper_localOk_core e ep md hpr hep hmd hl hp hc,
   test_localOk_trace t heT himT hlT hpT hcT⟩

/-- Witness for the amended C5 at concrete environments where the whole
local-credential try block succeeds. -/
theorem c5_local_success_uses_cli_witness :
    isLocalAuthBool envLocalOk.isLocalAuth = true ∧
    envLocalOk.cliGetTokenOk = true ∧
    isLocalAuthBool testEnvLocalAllOk.isLocalAuth = true ∧
    Event.defaultCredCreated ∉ (interiorDesignRun envLocalOk).1 ∧
    Event.defaultCredCreated ∉ (test_authentication testEnvLocalAllOk).1 :=
  ⟨by decide, by decide, by decide,
   (c5_local_success_uses_cli envLocalOk testEnvLocalAllOk
     "https://proj.services.ai.azure.com/api/projects/proj" "agent-123" "gpt-4o"
     (by decide) (by decide) (by decide) (by decide) (by decide) (by decide)
     (by decide) (by decide) (by decide) (by decide) (by decide)
     (by decide)).1.2.2.1,
   (c5_local_success_uses_cli envLocalOk testEnvLocalAllOk
     "https://proj.services.ai.azure.com/api/projects/proj" "agent-123" "gpt-4o"
     (by decide) (by decide) (by decide) (by decide) (by decide) (by decide)
     (by decide) (by decide) (by decide) (by decide) (by decide)
     (by decide)).2.2.2.2.2.1⟩

lemma initializer_c10_core (idVar : String) (e : InitEnv) (ep aid : String)
    (hpr : e.promptOk = true) (hep : e.endpoint = some ep)
    (hid : e.agentIdVar = some aid)
    (hl : isLocalAuthBool e.isLocalAuth = true) :
    (e.cliGetTokenOk = true → e.cliClientOk = false →
      Event.printLine cliFallbackLine ∈ (initializerRun idVar e).1 ∧
      Event.defaultCredCreated ∈ (initializerRun idVar e).1 ∧
      Event.clientCall Cred.defaultAzure ∈ (initializerRun idVar e).1) ∧
    (Event.printLine cliSuccessLine ∈ (initializerRun idVar e).1 ↔
      (e.cliGetTokenOk = true ∧ e.cliClientOk = true)) := by
  constructor
  · intro hp hc
    rw [initializerRun_resolved idVar e ep aid hpr hep hid,
      credentialResolve_ctorFail e hl hp hc]
    cases hd : e.defaultClientOk <;> simp
  · rcases agentCrud_not_mem e aid with ⟨_, _, _, _, _, h6, h7⟩
    cases hp : e.cliGetTokenOk <;> cases hc : e.cliClientOk
    · rw [initializerRun_resolved idVar e ep aid hpr hep hid,
        credentialResolve_probeFail e hl hp]
      cases hd : e.defaultClientOk <;>
        simp [h6, show cliSuccessLine ≠ cliFallbackLine by decide]
    · rw [initializerRun_resolved idVar e ep aid hpr hep hid,
        credentialResolve_probeFail e hl hp]
      cases hd : e.defaultClientOk <;>
        simp [h6, show cliSuccessLine ≠ cliFallbackLine by decide]
    · rw [initializerRun_resolved idVar e ep aid hpr hep hid,
        credentialResolve_ctorFail e hl hp hc]
      cases hd : e.defaultClientOk <;>
        simp [h6, show cliSuccessLine ≠ cliFallbackLine by decide]
    · rw [initializerRun_resolved idVar e ep aid hpr hep hid,
        credentialResolve_localOk e hl hp hc]
      simp

lemma shopper_c10_core (e : InitEnv) (ep md : String)
    (hpr : e.promptOk = true) (hep : e.endpoint = some ep)
    (hmd : e.modelDeployment = some md)
    (hl : isLocalAuthBool e.isLocalAuth = true) :
    (e.cliGetTokenOk = true → e.cliClientOk = false →
      Event.printLine cliFallbackLine ∈ (shopperRun e).1 ∧
      Event.defaultCredCreated ∈ (shopperRun e).1 ∧
      Event.clientCall Cred.defaultAzure ∈ (shopperRun e).1) ∧
    (Event.printLine cliSuccessLine ∈ (shopperRun e).1 ↔
      (e.cliGetTokenOk = true ∧ e.cliClientOk = true)) := by
  constructor
  · intro hp hc
    rw [shopperRun_resolved e ep md hpr hep hmd, credentialResolve_ctorFail e hl hp hc]
    cases hd : e.defaultClientOk <;> simp
  · cases hp : e.cliGetTokenOk <;> cases hc : e.cliClientOk
    · rw [shopperRun_resolved e ep md hpr hep hmd, credentialResolve_probeFail e hl hp]
      cases hd : e.defaultClientOk <;>
        simp [show cliSuccessLine ≠ cliFallbackLine by decide,
          show cliSuccessLine ≠ "Created agent" by decide]
    · rw [shopperRun_resolved e ep md hpr hep hmd, credentialResolve_probeFail e hl hp]
      cases hd : e.defaultClientOk <;>
        simp [show cliSuccessLine ≠ cliFallbackLine by decide,
          show cliSuccessLine ≠ "Created agent" by decide]
    · rw [shopperRun_resolved e ep md hpr hep hmd, credentialResolve_ctorFail e hl hp hc]
      cases hd : e.defaultClientOk <;>
        simp [show cliSuccessLine ≠ cliFallbackLine by decide,
          show cliSuccessLine ≠ "Created agent" by decide]
    · rw [shopperRun_resolved e ep md hpr hep hmd, credentialResolve_localOk e hl hp hc]
      simp

/-- C10: in every initializer script with `IS_LOCAL_AUTH` evaluating to
true, the `try` block encloses both the token probe and the
`AIProjectClient` construction with the CLI credential, so an exception
raised by that construction also triggers fallback to
`DefaultAzureCredential`; the status line announcing local
authentication is printed exactly when both the probe and the
construction succeed. -/
theorem c10_try_encloses_client_construction (e : InitEnv) (ep aid md : String)
    (hpr : e.promptOk = true) (hep : e.endpoint = some ep)
    (hid : e.agentIdVar = some aid) (hmd : e.modelDeployment = some md)
    (hl : isLocalAuthBool e.isLocalAuth = true) :
    ((e.cliGetTokenOk = true → e.cliClientOk = false →
        Event.printLine cliFallbackLine ∈ (interiorDesignRun e).1 ∧
        Event.defaultCredCreated ∈ (interiorDesignRun e).1 ∧
        Event.clientCall Cred.defaultAzure ∈ (interiorDesignRun e).1) ∧
      (Event.printLine cliSuccessLine ∈ (interiorDesignRun e).1 ↔
        (e.cliGetTokenOk = true ∧ e.cliClientOk = true))) ∧
    ((e.cliGetTokenOk = true → e.cliClientOk = false →
        Event.printLine cliFallbackLine ∈ (inventoryRun e).1 ∧
        Event.defaultCredCreated ∈ (inventoryRun e).1 ∧
        Event.clientCall Cred.defaultAzure ∈ (inventoryRun e).1) ∧
      (Event.printLine cliSuccessLine ∈ (inventoryRun e).1 ↔
        (e.cliGetTokenOk = true ∧ e.cliClientOk = true))) ∧
    ((e.cliGetTokenOk = true → e.cliClientOk = false →
        Event.printLine cliFallbackLine ∈ (shopperRun e).1 ∧
        Event.defaultCredCreated ∈ (shopperRun e).1 ∧
        Event.clientCall Cred.defaultAzure ∈ (shopperRun e).1) ∧
      (Event.printLine cliSuccessLine ∈ (shopperRun e).1 ↔
        (e.cliGetTokenOk = true ∧ e.cliClientOk = true))) :=
  ⟨initializer_c10_core "interior_designer" e ep aid hpr hep hid hl,
   initializer_c10_core "inventory_agent" e ep aid hpr hep hid hl,
   shopper_c10_core e ep md hpr hep hmd hl⟩

/-- Witness for C10 at a concrete environment whose probe succeeds but
whose CLI-credential client construction raises. -/
theorem c10_try_encloses_client_construction_witness :
    isLocalAuthBool envCliCtorFail.isLocalAuth = true ∧
    envCliCtorFail.cliGetTokenOk = true ∧ envCliCtorFail.cliClientOk = false ∧
    Event.printLine cliFallbackLine ∈ (interiorDesignRun envCliCtorFail).1 :=
  ⟨by decide, by decide, by decide,
   ((c10_try_encloses_client_construction envCliCtorFail
       "https://proj.services.ai.azure.com/api/projects/proj" "agent-123" "gpt-4o"
       (by decide) (by decide) (by decide) (by decide) (by decide)).1.1
     (by decide) (by decide)).1⟩

lemma authOnly_not_crud {tr : List Event} (h : authEventsOnly tr = true) :
    (∀ s, Event.getAgentCall s ∉ tr) ∧ (∀ s, Event.updateAgentCall s ∉ tr) ∧
    Event.createAgentCall ∉ tr := by
  simp only [authEventsOnly, List.all_eq_true] at h
  refine ⟨fun s hm => ?_, fun s hm => ?_, fun hm => ?_⟩ <;> simpa using h _ hm

lemma agentCrud_not_both (e : InitEnv) (aid s : String) :
    ¬(Event.createAgentCall ∈ (agentCrudPhase e aid).1 ∧
      Event.updateAgentCall s ∈ (agentCrudPhase e aid).1) := by
  cases hne : (aid != "") <;> cases hg : e.getAgentOk <;> cases hm : e.modelDeployment <;>
    simp [agentCrudPhase, hne, hg, hm]

lemma resolveOk_ok {e : InitEnv} {tr : List Event} {res : Except PyExc Cred}
    (hres : credentialResolve e = (tr, res)) (hrok : resolveOk e = true) :
    ∃ c, res = Except.ok c := by
  cases res with
  | ok c => exact ⟨c, rfl⟩
  | error exc => simp [resolveOk, hres] at hrok

/-- C2 as stated fails on the code: when the per-agent id environment
variable is ABSENT, `os.environ["interior_designer"]` raises `KeyError`
and the script aborts before any agent call, so `create_agent` is never
called (only a present-but-empty id reaches the create path). -/
theorem c2_counterexample :
    envIdUnset.agentIdVar = none ∧
    (interiorDesignRun envIdUnset).2 = Outcome.raised (PyExc.keyError "interior_designer") ∧
    Event.createAgentCall ∉ (interiorDesignRun envIdUnset).1 := by
  decide

lemma initializerRun_ok (idVar : String) (e : InitEnv) (ep aid : String)
    (tr : List Event) (c : Cred)
    (hpr : e.promptOk = true) (hep : e.endpoint = some ep)
    (hid : e.agentIdVar = some aid)
    (hres : credentialResolve e = (tr, Except.ok c)) :
    initializerRun idVar e =
      (tr ++ (agentCrudPhase e aid).1, (agentCrudPhase e aid).2) := by
  rw [initializerRun_resolved idVar e ep aid hpr hep hid, hres]

lemma initializerRun_err (idVar : String) (e : InitEnv) (ep aid : String)
    (tr : List Event) (exc : PyExc)
    (hpr : e.promptOk = true) (hep : e.endpoint = some ep)
    (hid : e.agentIdVar = some aid)
    (hres : credentialResolve e = (tr, Except.error exc)) :
    initializerRun idVar e = (tr, Outcome.raised exc) := by
  rw [initializerRun_resolved idVar e ep aid hpr hep hid, hres]

/-- C2 amended: in the interior-design and inventory initializers a
NON-EMPTY id value selects the update path (`get_agent` then
`update_agent`) and never `create_agent`; a present-but-EMPTY id value
selects `create_agent` and never `update_agent`; an ABSENT id variable
aborts the run with a `KeyError` naming the variable before any agent
call; no run takes both paths; and the shopper initializer never calls
`update_agent` and calls `create_agent` whenever it reaches the agent
phase. -/
theorem c2_update_vs_create (e : InitEnv) (ep : String)
    (hpr : e.promptOk = true) (hep : e.endpoint = some ep) :
    (∀ idVar, e.agentIdVar = none →
        (initializerRun idVar e).2 = Outcome.raised (PyExc.keyError idVar) ∧
        Event.createAgentCall ∉ (initializerRun idVar e).1 ∧
        (∀ s, Event.updateAgentCall s ∉ (initializerRun idVar e).1)) ∧
    (∀ idVar aid md, e.agentIdVar = some aid → aid ≠ "" →
        resolveOk e = true → e.getAgentOk = true → e.modelDeployment = some md →
        Event.getAgentCall aid ∈ (initializerRun idVar e).1 ∧
        Event.updateAgentCall aid ∈ (initializerRun idVar e).1 ∧
        Event.createAgentCall ∉ (initializerRun idVar e).1) ∧
    (∀ idVar md, e.agentIdVar = some "" → resolveOk e = true →
        e.modelDeployment = some md →
        Event.createAgentCall ∈ (initializerRun idVar e).1 ∧
        (∀ s, Event.updateAgentCall s ∉ (initializerRun idVar e).1)) ∧
    (∀ idVar s, ¬(Event.createAgentCall ∈ (initializerRun idVar e).1 ∧
        Event.updateAgentCall s ∈ (initializerRun idVar e).1)) ∧
    ((∀ s, Event.updateAgentCall s ∉ (shopperRun e).1) ∧
      (∀ md, e.modelDeployment = some md → resolveOk e = true →
        Event.createAgentCall ∈ (shopperRun e).1)) := by
  refine ⟨?_, ?_, ?_, ?_, ?_, ?_⟩
  · intro idVar ha
    have hrun : initializerRun idVar e = ([], Outcome.raised (PyExc.keyError idVar)) := by
      simp [initializerRun, hpr, hep, ha]
    rw [hrun]
    simp
  · intro idVar aid md ha hne hrok hg hm
    rcases hres : credentialResolve e with ⟨tr, res⟩
    rcases resolveOk_ok hres hrok with ⟨c, rfl⟩
    have hrun := initializerRun_ok idVar e ep aid tr c hpr hep ha hres
    have hA : authEventsOnly tr = true := by
      have h0 := credentialResolve_authOnly e
      rw [hres] at h0
      exact h0
    rcases authOnly_not_crud hA with ⟨-, -, hc1⟩
    have hne2 : (aid != "") = true := by simpa [bne_iff_ne] using hne
    have hcrud : agentCrudPhase e aid =
        ([Event.getAgentCall aid, Event.printLine "Retrieved existing agent",
          Event.updateAgentCall aid, Event.printLine "Updated agent"],
         Outcome.completed) := by
      simp [agentCrudPhase, hne2, hg, hm]
    rw [hrun, hcrud]
    simp [hc1]
  · intro idVar md ha hrok hm
    rcases hres : credentialResolve e with ⟨tr, res⟩
    rcases resolveOk_ok hres hrok with ⟨c, rfl⟩
    have hrun := initializerRun_ok idVar e ep "" tr c hpr hep ha hres
    have hA : authEventsOnly tr = true := by
      have h0 := credentialResolve_authOnly e
      rw [hres] at h0
      exact h0
    rcases authOnly_not_crud hA with ⟨-, hu1, -⟩
    have hcrud : agentCrudPhase e "" =
        ([Event.createAgentCall, Event.printLine "Created agent"], Outcome.completed) := by
      simp [agentCrudPhase, hm]
    rw [hrun, hcrud]
    constructor
    · simp
    · intro s
      simp [hu1 s]
  · intro idVar s
    cases ha : e.agentIdVar with
    | none =>
      have hrun : initializerRun idVar e = ([], Outcome.raised (PyExc.keyError idVar)) := by
        simp [initializerRun, hpr, hep, ha]
      rw [hrun]
      simp
    | some aid =>
      rcases hres : credentialResolve e with ⟨tr, res⟩
      have hA : authEventsOnly tr = true := by
        have h0 := credentialResolve_authOnly e
        rw [hres] at h0
        exact h0
      rcases authOnly_not_crud hA with ⟨-, hu1, hc1⟩
      cases res with
      | error exc =>
        have hrun := initializerRun_err idVar e ep aid tr exc hpr hep ha hres
        rw [hrun]
        rintro ⟨hm1, -⟩
        exact hc1 hm1
      | ok c =>
        have hrun := initializerRun_ok idVar e ep aid tr c hpr hep ha hres
        rw [hrun]
        rintro ⟨hm1, hm2⟩
        rcases List.mem_append.mp hm1 with h | h
        · exact hc1 h
        rcases List.mem_append.mp hm2 with h2 | h2
        · exact hu1 s h2
        exact agentCrud_not_both e aid s ⟨h, h2⟩
  · intro s
    rcases hres : credentialResolve e with ⟨tr, res⟩
    have hA : authEventsOnly tr = true := by
      have h0 := credentialResolve_authOnly e
      rw [hres] at h0
      exact h0
    rcases authOnly_not_crud hA with ⟨-, hu1, -⟩
    cases res with
    | error exc => simp [shopperRun, hpr, hep, hres, hu1 s]
    | ok c =>
      cases hm : e.modelDeployment with
      | none => simp [shopperRun, hpr, hep, hres, hm, hu1 s]
      | some md => simp [shopperRun, hpr, hep, hres, hm, hu1 s]
  · intro md hm hrok
    rcases hres : credentialResolve e with ⟨tr, res⟩
    rcases resolveOk_ok hres hrok with ⟨c, rfl⟩
    simp [shopperRun, hpr, hep, hres, hm]

/-- Witness for the amended C2 at a concrete environment with a
non-empty agent id: the update path is taken and `create_agent` is never
called. -/
theorem c2_update_vs_create_witness :
    envLocalOk.agentIdVar = some "agent-123" ∧
    Event.updateAgentCall "agent-123" ∈ (interiorDesignRun envLocalOk).1 ∧
    Event.createAgentCall ∉ (interiorDesignRun envLocalOk).1 :=
  ⟨by decide,
   ((c2_update_vs_create envLocalOk
       "https://proj.services.ai.azure.com/api/projects/proj"
       (by decide) (by decide)).2.1 "interior_designer" "agent-123" "gpt-4o"
     (by decide) (by decide) (by decide) (by decide) (by decide)).2.1,
   ((c2_update_vs_create envLocalOk
       "https://proj.services.ai.azure.com/api/projects/proj"
       (by decide) (by decide)).2.1 "interior_designer" "agent-123" "gpt-4o"
     (by decide) (by decide) (by decide) (by decide) (by decide)).2.2⟩

lemma initializer_noEndpoint (idVar : String) (e : InitEnv)
    (hep : e.endpoint = none) :
    (∃ exc, (initializerRun idVar e).2 = Outcome.raised exc ∧ missingConfig exc = true) ∧
    noProbeOrRemote (initializerRun idVar e).1 = true := by
  cases hpr : e.promptOk
  · have hrun : initializerRun idVar e =
        ([], Outcome.raised (PyExc.fileNotFound "prompts")) := by
      simp [initializerRun, hpr]
    rw [hrun]
    exact ⟨⟨PyExc.fileNotFound "prompts", rfl, rfl⟩, rfl⟩
  · have hrun : initializerRun idVar e =
        ([], Outcome.raised (PyExc.keyError "AZURE_AI_AGENT_ENDPOINT")) := by
      simp [initializerRun, hpr, hep]
    rw [hrun]
    exact ⟨⟨PyExc.keyError "AZURE_AI_AGENT_ENDPOINT", rfl, rfl⟩, rfl⟩

lemma shopper_noEndpoint (e : InitEnv) (hep : e.endpoint = none) :
    (∃ exc, (shopperRun e).2 = Outcome.raised exc ∧ missingConfig exc = true) ∧
    noProbeOrRemote (shopperRun e).1 = true := by
  cases hpr : e.promptOk
  · have hrun : shopperRun e = ([], Outcome.raised (PyExc.fileNotFound "prompts")) := by
      simp [shopperRun, hpr]
    rw [hrun]
    exact ⟨⟨PyExc.fileNotFound "prompts", rfl, rfl⟩, rfl⟩
  · have hrun : shopperRun e =
        ([], Outcome.raised (PyExc.keyError "AZURE_AI_AGENT_ENDPOINT")) := by
      simp [shopperRun, hpr, hep]
    rw [hrun]
    exact ⟨⟨PyExc.keyError "AZURE_AI_AGENT_ENDPOINT", rfl, rfl⟩, rfl⟩

lemma test_noEndpoint (t : TestEnv) (ht : t.endpoint = none) :
    testExitCode t = 1 ∧
    Event.printLine "❌ ERROR: AZURE_AI_AGENT_ENDPOINT is not set" ∈
      (test_authentication t).1 ∧
    noProbeOrRemote (test_authentication t).1 = true := by
  have hrun : test_authentication t =
      (testHeader t ++ [Event.printLine "❌ ERROR: AZURE_AI_AGENT_ENDPOINT is not set"],
       false) := by
    simp [test_authentication, ht, truthy]
  refine ⟨by simp [testExitCode, hrun], by rw [hrun]; simp, ?_⟩
  rw [hrun]
  simp [noProbeOrRemote, testHeader]

/-- C6: when `AZURE_AI_AGENT_ENDPOINT` is unset, every initializer
aborts with a missing-configuration exception and the credential-test
script returns failure (exit code 1) with an explicit error line, in
all cases before any credential probe, client construction or remote
API call. -/
theorem c6_missing_endpoint_aborts_early (e : InitEnv) (t : TestEnv)
    (hep : e.endpoint = none) (ht : t.endpoint = none) :
    ((∃ exc, (interiorDesignRun e).2 = Outcome.raised exc ∧ missingConfig exc = true) ∧
      noProbeOrRemote (interiorDesignRun e).1 = true) ∧
    ((∃ exc, (inventoryRun e).2 = Outcome.raised exc ∧ missingConfig exc = true) ∧
      noProbeOrRemote (inventoryRun e).1 = true) ∧
    ((∃ exc, (shopperRun e).2 = Outcome.raised exc ∧ missingConfig exc = true) ∧
      noProbeOrRemote (shopperRun e).1 = true) ∧
    (testExitCode t = 1 ∧
      Event.printLine "❌ ERROR: AZURE_AI_AGENT_ENDPOINT is not set" ∈
        (test_authentication t).1 ∧
      noProbeOrRemote (test_authentication t).1 = true) :=
  ⟨initializer_noEndpoint "interior_designer" e hep,
   initializer_noEndpoint "inventory_agent" e hep,
   shopper_noEndpoint e hep,
   test_noEndpoint t ht⟩

/-- Witness for C6 at concrete environments with the endpoint unset. -/
theorem c6_missing_endpoint_aborts_early_witness :
    envEndpointUnset.endpoint = none ∧ testEnvNoEndpoint.endpoint = none ∧
    testExitCode testEnvNoEndpoint = 1 :=
  ⟨by decide, by decide,
   (c6_missing_endpoint_aborts_early envEndpointUnset testEnvNoEndpoint
     (by decide) (by decide)).2.2.2.1⟩

lemma testCredentialPhase_snd (t : TestEnv) :
    (testCredentialPhase t).2 = testAuthSucceeded t := by
  unfold testCredentialPhase testDefaultFallback testAuthSucceeded
  cases hl : isLocalAuthBool t.isLocalAuth <;>
    cases hct : t.cliGetTokenOk <;> cases hcc : t.cliClientOk <;>
    cases hdt : t.defaultGetTokenOk <;> cases hdc : t.defaultClientOk <;>
    simp [hl]

lemma test_authentication_snd (t : TestEnv) :
    (test_authentication t).2 =
      (truthy t.endpoint && t.azureImportOk && testAuthSucceeded t &&
        t.createThreadOk && t.deleteThreadOk) := by
  rcases hauth : testCredentialPhase t with ⟨atr, ab⟩
  have hab : ab = testAuthSucceeded t := by rw [← testCredentialPhase_snd t, hauth]
  cases hep : truthy t.endpoint <;> cases him : t.azureImportOk <;>
    cases hcr : t.createThreadOk <;> cases hdl : t.deleteThreadOk <;>
    cases hb : ab <;>
    simp [test_authentication, hep, him, hauth, hcr, hdl, ← hab, hb]

/-- C9: the credential-test script exits with code 0 exactly when every
step succeeds (endpoint configured, imports fine, a credential obtained
and a client constructed, test thread created and deleted), and exits
with code 1 exactly when some step fails. -/
theorem c9_exit_code_reflects_steps (t : TestEnv) :
    (testExitCode t = 0 ↔ testStepsOk t = true) ∧
    (testExitCode t = 1 ↔ testStepsOk t = false) := by
  have hx : testExitCode t = if testStepsOk t then 0 else 1 := by
    rw [testExitCode, test_authentication_snd]
    rfl
  cases hs : testStepsOk t <;> simp [hx, hs]

/-- C3: `in_azure` is true exactly when at least one of the five
platform signals is true; it is the monotone disjunction of the five
signal booleans, false when all are false and flipped to true by any
single signal alone; and the emergency variant is the same five-signal
disjunction with the managed-identity-endpoint signal read from either
of its two endpoint variables. -/
theorem c3_in_azure_is_disjunction :
    (∀ e : DiagEnv, in_azure e = true ↔
      (truthy e.websiteHostname = true ∨ truthy e.containerAppName = true ∨
       truthy e.aksNodeName = true ∨ e.optMicrosoftExists = true ∨
       truthy e.msiEndpoint = true)) ∧
    (∀ w c a p m : Bool, in_azure (mkDiagEnv w c a p m) = (w || c || a || p || m)) ∧
    (in_azure (mkDiagEnv false false false false false) = false ∧
     in_azure (mkDiagEnv true false false false false) = true ∧
     in_azure (mkDiagEnv false true false false false) = true ∧
     in_azure (mkDiagEnv false false true false false) = true ∧
     in_azure (mkDiagEnv false false false true false) = true ∧
     in_azure (mkDiagEnv false false false false true) = true) ∧
    (∀ e : EmergEnv, emergencyInAzure e = true ↔
      (truthy e.websiteHostname = true ∨ truthy e.containerAppName = true ∨
       truthy e.aksNodeName = true ∨ e.optMicrosoftExists = true ∨
       (truthy e.msiEndpoint || truthy e.identityEndpoint) = true)) := by
  refine ⟨fun e => ?_, fun w c a p m => ?_, by decide, fun e => ?_⟩
  · simp only [in_azure, Bool.or_eq_true]
    tauto
  · cases w <;> cases c <;> cases a <;> cases p <;> cases m <;> decide
  · simp only [emergencyInAzure, Bool.or_eq_true]
    tauto

/-- C7: when the classifier detects Azure and `IS_LOCAL_AUTH` is
`true`, `diagnose_auth` prints the ISSUE line and the FIX line
recommending that `IS_LOCAL_AUTH` be disabled, and the emergency
diagnostic likewise recommends removing the `IS_LOCAL_AUTH` setting. -/
theorem c7_azure_with_local_pref_flagged (e : DiagEnv) (cli : Bool)
    (hAz : in_azure e = true) (hLoc : diagIsLocalAuth e = "true") :
    "  ❌ ISSUE: IS_LOCAL_AUTH is set to \x27true\x27 but you\x27re running in Azure" ∈
      check_environment e cli ∧
    "  ✅ FIX: Set IS_LOCAL_AUTH=\x27false\x27 or remove it entirely" ∈
      check_environment e cli ∧
    "2. Remove \x27IS_LOCAL_AUTH\x27 setting entirely" ∈
      emergencyRecommendations true true := by
  cases cli <;> simp [check_environment, hAz, hLoc, emergencyRecommendations]

/-- Witness for C7 at a concrete in-Azure environment with
`IS_LOCAL_AUTH=true`. -/
theorem c7_azure_with_local_pref_flagged_witness :
    in_azure diagAzureLocal = true ∧ diagIsLocalAuth diagAzureLocal = "true" ∧
    "  ✅ FIX: Set IS_LOCAL_AUTH=\x27false\x27 or remove it entirely" ∈
      check_environment diagAzureLocal false :=
  ⟨by decide, by decide,
   (c7_azure_with_local_pref_flagged diagAzureLocal false
     (by decide) (by decide)).2.1⟩

/-- C8 as stated fails on the code: "preferLocalCredential false"
covers any `IS_LOCAL_AUTH` value other than `true` (the boolean reading
all scripts use), but for an unexpected value such as `yes` outside
Azure, `diagnose_auth` prints a flagged WARNING line and neither the
acceptable-default INFO line nor the TIP. -/
theorem c8_counterexample :
    in_azure diagUnexpectedValue = false ∧
    isLocalAuthBool diagUnexpectedValue.isLocalAuthVar = false ∧
    "  ℹ️  INFO: Using DefaultAzureCredential for local development" ∉
      check_environment diagUnexpectedValue false ∧
    "  <tip> TIP: Set IS_LOCAL_AUTH=\x27true\x27 if you want to use Azure CLI credentials" ∉
      check_environment diagUnexpectedValue false ∧
    (∃ l ∈ check_environment diagUnexpectedValue false, flaggedLine l = true) := by
  decide

/-- C8 amended: outside Azure with `IS_LOCAL_AUTH` unset or equal,
lowercased, to `false`, `diagnose_auth` prints the acceptable-default
INFO line and the optional TIP to enable the local preference, and no
ISSUE, FIX or WARNING line; the emergency diagnostic likewise prints
only the local-environment note with the same optional tip. -/
theorem c8_local_default_not_flagged (e : DiagEnv) (cli : Bool)
    (hAz : in_azure e = false)
    (hLoc : diagIsLocalAuth e = "" ∨ diagIsLocalAuth e = "false") :
    "  ℹ️  INFO: Using DefaultAzureCredential for local development" ∈
      check_environment e cli ∧
    "  <tip> TIP: Set IS_LOCAL_AUTH=\x27true\x27 if you want to use Azure CLI credentials" ∈
      check_environment e cli ∧
    (∀ l ∈ check_environment e cli, flaggedLine l = false) ∧
    flaggedLine "  ✅ FIX: Set IS_LOCAL_AUTH=\x27false\x27 or remove it entirely" = true ∧
    emergencyRecommendations false false =
      ["6. RECOMMENDATIONS", "--------------------",
       "ℹ️  This appears to be a local development environment",
       "Consider setting IS_LOCAL_AUTH=true for local development"] := by
  rcases hLoc with h | h <;> cases cli <;>
    simp [check_environment, hAz, h, flaggedLine, emergencyRecommendations] <;> decide

/-- Witness for C8 at a concrete local environment with `IS_LOCAL_AUTH`
unset. -/
theorem c8_local_default_not_flagged_witness :
    in_azure diagLocalDefault = false ∧ diagIsLocalAuth diagLocalDefault = "" ∧
    "  ℹ️  INFO: Using DefaultAzureCredential for local development" ∈
      check_environment diagLocalDefault true :=
  ⟨by decide, by decide,
   (c8_local_default_not_flagged diagLocalDefault true
     (by decide) (Or.inl (by decide))).1⟩
